import Mathlib

/-!
Verification model of `main2.py` (CrewAI Financial Market Wrap).

External collaborators — the Tavily search API, the Groq language model
called through litellm, and the Telegram messaging API — are black
boxes.  Each collaborator call is modelled by the outcome the
collaborator produces for it: `Except String α` for a transport that
either returns a payload or raises with an error message, and a
per-attempt outcome function for the language-model retry loop.  The
pure logic of the source (error classification by substring match,
 retry bookkeeping, result truncation, message assembly, environment
validation, and the primary/fallback control flow of `main`) is
translated directly from the Python.
-/

namespace MarketWrap

/-- Substring containment on character lists: Python's `pat in s`.
`containsSub pat l` is true iff `pat` occurs contiguously in `l`. -/
def containsSub (pat : List Char) : List Char → Bool
  | [] => pat.isEmpty
  | c :: rest => pat.isPrefixOf (c :: rest) || containsSub pat rest

/-- Python's `str.lower()` (ASCII case folding suffices for the
patterns matched by the source). -/
def strLower (s : String) : String := String.mk (s.data.map Char.toLower)

/-- Python's `pat in s` on strings. -/
def strContains (s pat : String) : Bool := containsSub pat.data s.data

/-- Outcome of one `completion(...)` call inside `generate_market_wrap`:
either the returned text (`response["choices"][0]["message"]["content"]`)
or the message of the raised exception. -/
inductive LLMOutcome where
  | success (text : String)
  | error (msg : String)
deriving DecidableEq

/-- What one iteration of the retry loop does after its `completion`
call: leave the loop returning a string, or sleep and go to the next
attempt. -/
inductive StepAction where
  | finish (result : String)
  | sleepRetry (secs : Nat)
deriving DecidableEq

/-- Body of one iteration of `generate_market_wrap`'s loop
(`main2.py` lines 180–201): on success return the text; on an error
whose lowered message contains "rate limit" or "limit" sleep
`(i+1)*15`; else if it contains "internal server error" sleep
`(i+1)*10`; else return the error-description string. -/
def attemptStep (i : Nat) : LLMOutcome → StepAction
  | .success t => .finish t
  | .error m =>
    if strContains (strLower m) "rate limit" || strContains (strLower m) "limit" then
      .sleepRetry ((i + 1) * 15)
    else if strContains (strLower m) "internal server error" then
      .sleepRetry ((i + 1) * 10)
    else
      .finish ("Error generating summary: " ++ m)

/-- Result of `generate_market_wrap`: the returned string, the number of
outbound `completion` calls made, and the backoff sleeps performed, in
order. -/
structure GenResult where
  result : String
  calls : Nat
  sleeps : List Nat
deriving DecidableEq

/-- The `for i in range(retries)` loop of `generate_market_wrap`:
`fuel` is the number of remaining iterations, `i` the current index.
When the loop ends without returning, the sentinel string is returned
(`main2.py` line 202). -/
def genLoop (llm : Nat → LLMOutcome) : Nat → Nat → Nat → List Nat → GenResult
  | 0, _, calls, sleeps => ⟨"Rate limit exceeded or LLM error after retries.", calls, sleeps⟩
  | fuel + 1, i, calls, sleeps =>
    match attemptStep i (llm i) with
    | .finish r => ⟨r, calls + 1, sleeps⟩
    | .sleepRetry w => genLoop llm fuel (i + 1) (calls + 1) (sleeps ++ [w])

/-- The prompt built by `generate_market_wrap` (line 178). -/
def market_prompt (news : String) : String :=
  "Write a concise (<300 words) US market wrap based on the news:\n" ++ news

/-- `generate_market_wrap` (`main2.py` lines 176–202) with `retries = 3`:
the collaborator's outcome may depend on the prompt and on the attempt
index. -/
def generate_market_wrap (news : String) (llm : String → Nat → LLMOutcome) : GenResult :=
  genLoop (llm (market_prompt news)) 3 0 0 []

/-- A pattern that is a prefix of the list occurs in the list. -/
theorem containsSub_of_pref (p l : List Char) (h : p.isPrefixOf l = true) :
    containsSub p l = true := by
  cases l with
  | nil =>
    cases p with
    | nil => rfl
    | cons c cs => simp [List.isPrefixOf] at h
  | cons c rest => simp [containsSub, h]

/-- If `a ++ b` is a prefix of `l` then `b` occurs in `l`. -/
theorem containsSub_append (a b l : List Char) (h : (a ++ b).isPrefixOf l = true) :
    containsSub b l = true := by
  induction a generalizing l with
  | nil => exact containsSub_of_pref b l (by simpa using h)
  | cons c a ih =>
    cases l with
    | nil => simp [List.isPrefixOf] at h
    | cons d rest =>
      simp only [List.cons_append, List.isPrefixOf, Bool.and_eq_true] at h
      have := ih rest h.2
      simp [containsSub, this]

/-- Occurrence of `a ++ b` implies occurrence of `b`. -/
theorem containsSub_mono (a b l : List Char) (h : containsSub (a ++ b) l = true) :
    containsSub b l = true := by
  induction l with
  | nil =>
    simp only [containsSub, List.isEmpty_eq_true, List.append_eq_nil] at h
    simp [containsSub, h.2]
  | cons c rest ih =>
    simp only [containsSub, Bool.or_eq_true] at h
    rcases h with h | h
    · exact containsSub_append a b (c :: rest) h
    · have := ih h
      simp [containsSub, this]

/-- A string containing "rate limit" contains "limit". -/
theorem strContains_rate_imp_limit (s : String)
    (h : strContains s "rate limit" = true) : strContains s "limit" = true := by
  have hd : "rate limit".data = "rate ".data ++ "limit".data := by decide
  have h' : containsSub ("rate ".data ++ "limit".data) s.data = true := by
    have := h
    unfold strContains at this
    rw [hd] at this
    exact this
  exact containsSub_mono "rate ".data "limit".data s.data h'

/-- Contrapositive: not containing "limit" rules out "rate limit". -/
theorem strContains_rate_false (s : String)
    (h : strContains s "limit" = false) : strContains s "rate limit" = false := by
  cases hx : strContains s "rate limit" with
  | false => rfl
  | true =>
    have := strContains_rate_imp_limit s hx
    rw [this] at h
    exact absurd h (by simp)

/-- Every step of the retry loop either finishes or sleeps one of the
two class-determined durations for its attempt index. -/
theorem attemptStep_cases (i : Nat) (out : LLMOutcome) :
    (∃ r, attemptStep i out = .finish r) ∨
    attemptStep i out = .sleepRetry ((i + 1) * 15) ∨
    attemptStep i out = .sleepRetry ((i + 1) * 10) := by
  cases out with
  | success t => exact Or.inl ⟨t, rfl⟩
  | error m =>
    by_cases h1 : (strContains (strLower m) "rate limit" || strContains (strLower m) "limit") = true
    · exact Or.inr (Or.inl (by simp [attemptStep, h1]))
    · by_cases h2 : strContains (strLower m) "internal server error" = true
      · refine Or.inr (Or.inr ?_)
        simp only [Bool.or_eq_true, not_or] at h1
        simp [attemptStep, h2, Bool.eq_false_iff.mpr h1.1, Bool.eq_false_iff.mpr h1.2]
      · refine Or.inl ⟨"Error generating summary: " ++ m, ?_⟩
        simp only [Bool.or_eq_true, not_or] at h1
        simp [attemptStep, Bool.eq_false_iff.mpr h1.1, Bool.eq_false_iff.mpr h1.2,
          Bool.eq_false_iff.mpr h2]

/-- A transient error (message containing "limit" or "internal server
error") always yields a sleep-and-retry step. -/
theorem attemptStep_transient (i : Nat) (m : String)
    (h : (strContains (strLower m) "limit" ||
          strContains (strLower m) "internal server error") = true) :
    attemptStep i (.error m) = .sleepRetry ((i + 1) * 15) ∨
    attemptStep i (.error m) = .sleepRetry ((i + 1) * 10) := by
  have h' := h
  simp only [Bool.or_eq_true] at h'
  rcases h' with hl | hs
  · exact Or.inl (by simp [attemptStep, hl])
  · cases hx : strContains (strLower m) "limit" with
    | true => exact Or.inl (by simp [attemptStep, hx])
    | false =>
      have hrl := strContains_rate_false (strLower m) hx
      exact Or.inr (by simp [attemptStep, hrl, hx, hs])

/-- C2: for every input and every sequence of collaborator outcomes,
`generate_market_wrap` issues at most 3 outbound completion calls, no
single backoff sleep exceeds 45 seconds, and the sleeps sum to at most
90 seconds. -/
theorem c2_retry_bounds (news : String) (llm : String → Nat → LLMOutcome) :
    (generate_market_wrap news llm).calls ≤ 3 ∧
    (∀ w ∈ (generate_market_wrap news llm).sleeps, w ≤ 45) ∧
    (generate_market_wrap news llm).sleeps.sum ≤ 90 := by
  rcases attemptStep_cases 0 (llm (market_prompt news) 0) with ⟨r0, h0⟩ | h0 | h0 <;>
  rcases attemptStep_cases 1 (llm (market_prompt news) 1) with ⟨r1, h1⟩ | h1 | h1 <;>
  rcases attemptStep_cases 2 (llm (market_prompt news) 2) with ⟨r2, h2⟩ | h2 | h2 <;>
  simp [generate_market_wrap, genLoop, h0, h1, h2]

/-- Collaborator that rejects every attempt with a non-transient
authentication error. -/
def llmAuthFail : String → Nat → LLMOutcome := fun _ _ => .error "invalid api key"

/-- Collaborator that reports a rate limit on every attempt. -/
def llmAllRate : String → Nat → LLMOutcome := fun _ _ =>
  .error "Rate limit exceeded, retry later"

/-- Collaborator that rate-limits twice then succeeds. -/
def llmTwoRateThenOk : String → Nat → LLMOutcome := fun _ i =>
  if i < 2 then .error "rate limit reached" else .success "Stocks rose today."

/-- C3: a non-transient error (message containing neither "limit" nor
"internal server error") on the first attempt makes
`generate_market_wrap` return the error-description string after
exactly 1 outbound call, with no sleeps. -/
theorem c3_nontransient_single_attempt (news : String) (llm : String → Nat → LLMOutcome)
    (m : String)
    (h0 : llm (market_prompt news) 0 = .error m)
    (hl : strContains (strLower m) "limit" = false)
    (hs : strContains (strLower m) "internal server error" = false) :
    (generate_market_wrap news llm).result = "Error generating summary: " ++ m ∧
    (generate_market_wrap news llm).calls = 1 ∧
    (generate_market_wrap news llm).sleeps = [] := by
  have hrl := strContains_rate_false (strLower m) hl
  simp [generate_market_wrap, genLoop, h0, attemptStep, hrl, hl, hs]

/-- C3 witness: the non-transient scenario instantiated on a concrete
collaborator outcome. -/
theorem c3_witness :
    strContains (strLower "invalid api key") "limit" = false ∧
    strContains (strLower "invalid api key") "internal server error" = false ∧
    (generate_market_wrap "no news" llmAuthFail).result =
      "Error generating summary: invalid api key" ∧
    (generate_market_wrap "no news" llmAuthFail).calls = 1 ∧
    (generate_market_wrap "no news" llmAuthFail).sleeps = [] := by
  refine ⟨by decide, by decide, ?_⟩
  have h := c3_nontransient_single_attempt "no news" llmAuthFail "invalid api key" rfl
    (by decide) (by decide)
  exact ⟨h.1, h.2.1, h.2.2⟩

/-- C4: transient errors on all 3 attempts make `generate_market_wrap`
return the fixed sentinel string (it never raises: the model is a total
function). -/
theorem c4_transient_exhaustion (news : String) (llm : String → Nat → LLMOutcome)
    (m0 m1 m2 : String)
    (h0 : llm (market_prompt news) 0 = .error m0)
    (h1 : llm (market_prompt news) 1 = .error m1)
    (h2 : llm (market_prompt news) 2 = .error m2)
    (t0 : (strContains (strLower m0) "limit" ||
           strContains (strLower m0) "internal server error") = true)
    (t1 : (strContains (strLower m1) "limit" ||
           strContains (strLower m1) "internal server error") = true)
    (t2 : (strContains (strLower m2) "limit" ||
           strContains (strLower m2) "internal server error") = true) :
    (generate_market_wrap news llm).result =
      "Rate limit exceeded or LLM error after retries." ∧
    (generate_market_wrap news llm).calls = 3 := by
  rcases attemptStep_transient 0 m0 t0 with s0 | s0 <;>
  rcases attemptStep_transient 1 m1 t1 with s1 | s1 <;>
  rcases attemptStep_transient 2 m2 t2 with s2 | s2 <;>
  simp [generate_market_wrap, genLoop, h0, h1, h2, s0, s1, s2]

/-- C4 witness: all-transient scenario on a concrete collaborator. -/
theorem c4_witness :
    (strContains (strLower "Rate limit exceeded, retry later") "limit" ||
     strContains (strLower "Rate limit exceeded, retry later") "internal server error") = true ∧
    (generate_market_wrap "no news" llmAllRate).result =
      "Rate limit exceeded or LLM error after retries." := by
  refine ⟨by decide, ?_⟩
  exact (c4_transient_exhaustion "no news" llmAllRate _ _ _ rfl rfl rfl
    (by decide) (by decide) (by decide)).1

/-- C5: rate-limit errors on attempts 1 and 2 followed by success on
attempt 3 make `generate_market_wrap` return the successful text, with
backoff sleeps of exactly 15 then 30 seconds (15 × attempt number,
numbering from 1), totalling 45 seconds. -/
theorem c5_rate_limit_then_success (news : String) (llm : String → Nat → LLMOutcome)
    (m0 m1 t : String)
    (h0 : llm (market_prompt news) 0 = .error m0)
    (h1 : llm (market_prompt news) 1 = .error m1)
    (h2 : llm (market_prompt news) 2 = .success t)
    (t0 : (strContains (strLower m0) "rate limit" ||
           strContains (strLower m0) "limit") = true)
    (t1 : (strContains (strLower m1) "rate limit" ||
           strContains (strLower m1) "limit") = true) :
    (generate_market_wrap news llm).result = t ∧
    (generate_market_wrap news llm).sleeps = [15, 30] ∧
    (generate_market_wrap news llm).sleeps.sum = 45 := by
  simp [generate_market_wrap, genLoop, h0, h1, h2, attemptStep, t0, t1]

/-- C5 witness: the two-rate-limits-then-success scenario on a concrete
collaborator. -/
theorem c5_witness :
    (strContains (strLower "rate limit reached") "rate limit" ||
     strContains (strLower "rate limit reached") "limit") = true ∧
    (generate_market_wrap "no news" llmTwoRateThenOk).result = "Stocks rose today." ∧
    (generate_market_wrap "no news" llmTwoRateThenOk).sleeps = [15, 30] := by
  refine ⟨by decide, ?_⟩
  have h := c5_rate_limit_then_success "no news" llmTwoRateThenOk
    "rate limit reached" "rate limit reached" "Stocks rose today."
    rfl rfl rfl (by decide) (by decide)
  exact ⟨h.1, h.2.1⟩

/-- C10: the "limit" substring check takes precedence: any error whose
lowered message contains "limit" — including messages that also contain
"internal server error" — takes the rate-limit branch with a
`15 * (i + 1)` second wait, never the 10-second-class wait and never the
immediate non-transient return. -/
theorem c10_limit_precedence (i : Nat) (m : String)
    (h : strContains (strLower m) "limit" = true) :
    attemptStep i (.error m) = .sleepRetry ((i + 1) * 15) := by
  simp [attemptStep, h]

/-- C10 witness: a message containing both "internal server error" and
"limit" takes the 15-second-class branch. -/
theorem c10_witness :
    strContains (strLower "Internal server error: token limit exceeded") "limit" = true ∧
    strContains (strLower "Internal server error: token limit exceeded")
      "internal server error" = true ∧
    attemptStep 0 (.error "Internal server error: token limit exceeded") =
      .sleepRetry ((0 + 1) * 15) :=
  ⟨by decide, by decide,
    c10_limit_precedence 0 "Internal server error: token limit exceeded" (by decide)⟩

/-- One entry of the Tavily search response's `results` list. -/
structure SearchResult where
  title : String
  content : String
  url : String
  published_date : String
deriving DecidableEq

/-- One entry of the Tavily search response's `images` list. -/
structure ImageInfo where
  url : String
  description : String
deriving DecidableEq

/-- Body of a 2xx Tavily search response. -/
structure TavilyResponse where
  results : List SearchResult
  images : List ImageInfo
deriving DecidableEq

/-- The `formatted_results` dictionary built by `tavily_search_tool`
(`main2.py` lines 59–74): the top 3 results and top 2 images. -/
structure FormattedResults where
  news_articles : List SearchResult
  images : List ImageInfo
deriving DecidableEq

/-- Truncation performed by `tavily_search_tool`: `results[:3]` and
`images[:2]`. -/
def tavily_format (data : TavilyResponse) : FormattedResults :=
  ⟨data.results.take 3, data.images.take 2⟩

/-- What `tavily_search_tool` returns: the serialized digest
(`json.dumps(formatted_results)`) represented by its content, or the
"Error searching: ..." string produced by the handler (lines 77–79). -/
inductive ToolOutput where
  | digest (d : FormattedResults)
  | errorText (s : String)
deriving DecidableEq

/-- `tavily_search_tool` (lines 29–79), abstracted over the HTTP
transport outcome; the handler catches transport errors and non-2xx
statuses. -/
def tavily_search_tool (transport : Except String TavilyResponse) : ToolOutput :=
  match transport with
  | .ok data => .digest (tavily_format data)
  | .error e => .errorText ("Error searching: " ++ e)

/-- The list comprehension inside `fetch_market_news` (line 172): one
line per result, with no truncation of the response. -/
def fetch_news_lines (results : List SearchResult) : List String :=
  results.map (fun r => "- " ++ r.title ++ ": " ++ r.url)

/-- `fetch_market_news` (lines 155–174): the fallback news fetch;
returns a digest string, a no-news notice, or a caught-error string. -/
def fetch_market_news (transport : Except String (List SearchResult)) : String :=
  match transport with
  | .error e => "Error fetching news: " ++ e
  | .ok results =>
    if results.isEmpty then "No fresh market news found."
    else String.intercalate "\n" (fetch_news_lines results)

/-- `telegram_sender_tool` (lines 126–142): the primary-path delivery
tool; its handler catches every transport error and non-2xx status and
returns an error string. -/
def telegram_sender_tool (message : String) (transport : Except String Unit) : String :=
  match transport with
  | .ok _ => "✅ Message sent successfully to Telegram channel"
  | .error e => "❌ Error sending to Telegram: " ++ e

/-- `send_to_telegram_direct` (lines 145–153): the fallback delivery
call; its handler likewise catches every failure and returns an error
string. -/
def send_to_telegram_direct (message : String) (transport : Except String Unit) : String :=
  match transport with
  | .ok _ => "Message sent successfully"
  | .error e => "Error sending Telegram message: " ++ e

/-- The fallback-labeled message composed in `main` (lines 337–342). -/
def fallback_message (date time summary : String) : String :=
  "📊 **US Market Wrap - Fallback (" ++ date ++ ")** 📊\n\n" ++ summary ++
    "\n\n🕐 Generated: " ++ time ++ " EST\n"

/-- The four configuration values read from the environment at import
(lines 21–25): `none` models an unset variable. -/
structure Config where
  groq_api_key : Option String
  tavily_api_key : Option String
  telegram_bot_token : Option String
  telegram_chat_id : Option String
deriving DecidableEq

/-- Python truthiness of an optional string: `not val` holds for `None`
and for the empty string. -/
def falsy : Option String → Bool
  | none => true
  | some s => s == ""

/-- The `required_vars` dictionary of `validate_environment`
(lines 298–303), in insertion order. -/
def required_vars (c : Config) : List (String × Option String) :=
  [("GROQ_API_KEY", c.groq_api_key), ("TAVILY_API_KEY", c.tavily_api_key),
   ("TELEGRAM_BOT_TOKEN", c.telegram_bot_token), ("TELEGRAM_CHAT_ID", c.telegram_chat_id)]

/-- The `missing` list of `validate_environment` (line 304): the names
whose values are falsy, in order; it is what the error log enumerates. -/
def missing_vars (c : Config) : List String :=
  (required_vars c).filterMap (fun p => if falsy p.2 then some p.1 else none)

/-- `validate_environment` (lines 297–308). -/
def validate_environment (c : Config) : Bool := (missing_vars c).isEmpty

/-- Outcome of one primary-pipeline stage run by the crew framework. -/
inductive StageOutcome where
  | ok (text : String)
  | err (msg : String)
deriving DecidableEq

/-- Modelled from the spec: `crew.kickoff()` (line 321) is CrewAI
framework code, not part of this repository's source.  Per spec §2 and
§4.1 it runs four stages (research → summarize → format → deliver)
strictly in order and fail-fast: a stage error aborts the remaining
work before that stage's external side effect, and the pipeline raises;
stage 4 performs the externally visible delivery call exactly once when
it completes.  The second component counts primary-path delivery
attempts. -/
def runPrimary (s : Fin 4 → StageOutcome) : Except String String × Nat :=
  match s 0 with
  | .err m => (.error m, 0)
  | .ok _ =>
    match s 1 with
    | .err m => (.error m, 0)
    | .ok _ =>
      match s 2 with
      | .err m => (.error m, 0)
      | .ok _ =>
        match s 3 with
        | .err m => (.error m, 0)
        | .ok out => (.ok out, 1)

/-- Collaborator outcomes for one whole invocation of `main`. -/
structure MainEnv where
  config : Config
  stages : Fin 4 → StageOutcome
  newsTransport : Except String (List SearchResult)
  llm : String → Nat → LLMOutcome
  sendTransport : Except String Unit
  fallbackUnexpected : Option String

/-- What `main` reports at the end of an invocation. -/
inductive MainReport where
  | envFailed
  | completed (result : String)
  | fallbackCompleted (telegramResult : String)
  | totalFailure (msg : String)
deriving DecidableEq

/-- Report of an invocation together with the number of delivery
attempts made on each path. -/
structure MainRun where
  report : MainReport
  primarySendAttempts : Nat
  fallbackSendAttempts : Nat
deriving DecidableEq

/-- Fallback block of `main` (lines 333–345): fetch news, generate the
summary, compose the fallback message, deliver it directly.  Each step's
own handler converts collaborator failures into returned strings, so the
enclosing handler (lines 346–348) fires only for an exception raised
outside those handlers — modelled by `fallbackUnexpected` — in which
case complete system failure is reported and the delivery call is never
reached. -/
def runFallback (env : MainEnv) (date time : String) : MainReport × Nat :=
  match env.fallbackUnexpected with
  | some msg => (.totalFailure msg, 0)
  | none =>
    let news := fetch_market_news env.newsTransport
    let summary := (generate_market_wrap news env.llm).result
    let message := fallback_message date time summary
    let telegramResult := send_to_telegram_direct message env.sendTransport
    (.fallbackCompleted telegramResult, 1)

/-- `main` (lines 310–348): validate the environment, run the primary
crew pipeline, and on a raise run the fallback block. -/
def mainRun (env : MainEnv) (date time : String) : MainRun :=
  if validate_environment env.config then
    match runPrimary env.stages with
    | (.ok result, att) => ⟨.completed result, att, 0⟩
    | (.error _, att) =>
      let fb := runFallback env date time
      ⟨fb.1, att, fb.2⟩
  else ⟨.envFailed, 0, 0⟩

/-- How far the program gets from module import onward. -/
inductive StartupResult where
  | moduleLoadError (msg : String)
  | envValidationFailed (missing : List String)
  | ran (run : MainRun)
deriving DecidableEq

/-- Module import plus `main` (lines 21–27 and 297–314): at import,
`os.environ["GROQ_API_KEY"] = GROQ_API_KEY` (line 27) raises `TypeError`
when that key is unset (`os.getenv` returned `None`), before
`validate_environment` can run; otherwise `main` validates the
environment and either aborts logging the enumerated missing names or
runs the pipeline. -/
def program_startup (env : MainEnv) (date time : String) : StartupResult :=
  match env.config.groq_api_key with
  | none => .moduleLoadError "str expected, not NoneType"
  | some _ =>
    if validate_environment env.config then .ran (mainRun env date time)
    else .envValidationFailed (missing_vars env.config)

/-- The primary pipeline either completes with one delivery attempt or
raises with none. -/
theorem runPrimary_cases (s : Fin 4 → StageOutcome) :
    (∃ r, runPrimary s = (Except.ok r, 1)) ∨
    (∃ e, runPrimary s = (Except.error e, 0)) := by
  cases h0 : s 0 with
  | err m => exact Or.inr ⟨m, by simp [runPrimary, h0]⟩
  | ok t0 =>
    cases h1 : s 1 with
    | err m => exact Or.inr ⟨m, by simp [runPrimary, h0, h1]⟩
    | ok t1 =>
      cases h2 : s 2 with
      | err m => exact Or.inr ⟨m, by simp [runPrimary, h0, h1, h2]⟩
      | ok t2 =>
        cases h3 : s 3 with
        | err m => exact Or.inr ⟨m, by simp [runPrimary, h0, h1, h2, h3]⟩
        | ok out => exact Or.inl ⟨out, by simp [runPrimary, h0, h1, h2, h3]⟩

/-- C1: in every invocation that passes environment validation, the
primary send stage attempts delivery at most once and the fallback
direct send at most once, never both in one invocation; a fallback
attempt happens only when the primary pipeline raised; and when no
delivery is attempted at all, the invocation reports total failure
(both paths failed). -/
theorem c1_delivery_exclusive (env : MainEnv) (date time : String)
    (hv : validate_environment env.config = true) :
    (mainRun env date time).primarySendAttempts ≤ 1 ∧
    (mainRun env date time).fallbackSendAttempts ≤ 1 ∧
    ((mainRun env date time).primarySendAttempts = 0 ∨
     (mainRun env date time).fallbackSendAttempts = 0) ∧
    ((mainRun env date time).fallbackSendAttempts = 1 →
      ∃ e, (runPrimary env.stages).1 = Except.error e) ∧
    ((mainRun env date time).primarySendAttempts +
       (mainRun env date time).fallbackSendAttempts = 0 →
      ∃ m, (mainRun env date time).report = MainReport.totalFailure m) := by
  rcases runPrimary_cases env.stages with ⟨r, hp⟩ | ⟨e, hp⟩
  · simp [mainRun, hv, hp]
  · cases hu : env.fallbackUnexpected with
    | none => simp [mainRun, hv, hp, runFallback, hu]
    | some msg => simp [mainRun, hv, hp, runFallback, hu]

/-- A complete configuration. -/
def cfgAll : Config := ⟨some "g", some "t", some "b", some "c"⟩

/-- A fully successful invocation. -/
def envOK : MainEnv :=
  ⟨cfgAll, fun _ => .ok "done", .ok [], fun _ _ => .success "text", .ok (), none⟩

/-- C1 witness: the exclusivity theorem applied to a concrete
successful invocation. -/
theorem c1_witness :
    validate_environment cfgAll = true ∧
    (mainRun envOK "2025-01-01" "12:00:00").primarySendAttempts ≤ 1 :=
  ⟨by decide, (c1_delivery_exclusive envOK "2025-01-01" "12:00:00" (by decide)).1⟩

/-- An invocation whose primary pipeline raises at once and whose
fallback delivery transport fails. -/
def envPrimaryDownSendDown : MainEnv :=
  ⟨cfgAll, fun _ => .err "crew kickoff failed",
   .ok [⟨"Markets rally", "c", "u", "d"⟩],
   fun _ _ => .success "Stocks rose today.",
   .error "Connection refused", none⟩

/-- C6 counterexample: the primary pipeline raises and the fallback
delivery call fails, yet the invocation reports the fallback as
completed with the caught error string — total failure is not
reported. -/
theorem c6_cex :
    (mainRun envPrimaryDownSendDown "2025-01-01" "12:00:00").report =
      MainReport.fallbackCompleted
        "Error sending Telegram message: Connection refused" ∧
    (¬ ∃ m, (mainRun envPrimaryDownSendDown "2025-01-01" "12:00:00").report =
      MainReport.totalFailure m) := by
  have h : (mainRun envPrimaryDownSendDown "2025-01-01" "12:00:00").report =
      MainReport.fallbackCompleted
        "Error sending Telegram message: Connection refused" := by decide
  refine ⟨h, ?_⟩
  rintro ⟨m, hm⟩
  rw [h] at hm
  cases hm

/-- C6 (amended): when the primary pipeline raises and the fallback
delivery transport fails, `send_to_telegram_direct` catches the failure
and returns an error string, and `main` reports the fallback as
completed with that string; total failure is reported only when an
exception escapes the fallback's own handlers, before the delivery
call. -/
theorem c6_fallback_send_failure_caught (env : MainEnv) (date time e msg : String)
    (hv : validate_environment env.config = true)
    (hp : runPrimary env.stages = (Except.error e, 0))
    (hu : env.fallbackUnexpected = none)
    (hs : env.sendTransport = Except.error msg) :
    (mainRun env date time).report =
      MainReport.fallbackCompleted ("Error sending Telegram message: " ++ msg) ∧
    (mainRun env date time).fallbackSendAttempts = 1 := by
  simp [mainRun, hv, hp, runFallback, hu, send_to_telegram_direct, hs]

/-- C6 witness: the amended statement instantiated on the concrete
failing invocation. -/
theorem c6_witness :
    validate_environment cfgAll = true ∧
    runPrimary envPrimaryDownSendDown.stages = (Except.error "crew kickoff failed", 0) ∧
    (mainRun envPrimaryDownSendDown "2025-01-01" "12:00:00").fallbackSendAttempts = 1 := by
  refine ⟨by decide, rfl, ?_⟩
  exact (c6_fallback_send_failure_caught envPrimaryDownSendDown "2025-01-01" "12:00:00"
    "crew kickoff failed" "Connection refused" (by decide) rfl rfl rfl).2

/-- C7 (amended): the primary-path search tool truncates every response
to its top 3 results, while the fallback fetch turns every returned
result into a digest line with no truncation. -/
theorem c7_truncation (data : TavilyResponse) (results : List SearchResult) :
    (tavily_format data).news_articles.length ≤ 3 ∧
    (fetch_news_lines results).length = results.length := by
  constructor
  · simp only [tavily_format, List.length_take]
    omega
  · simp [fetch_news_lines]

/-- A 5-result search response. -/
def fiveResults : List SearchResult :=
  [⟨"t1", "c1", "u1", "d1"⟩, ⟨"t2", "c2", "u2", "d2"⟩, ⟨"t3", "c3", "u3", "d3"⟩,
   ⟨"t4", "c4", "u4", "d4"⟩, ⟨"t5", "c5", "u5", "d5"⟩]

/-- C7 counterexample: on a 5-result response the fallback fetch digest
contains all 5 results — the 4th and 5th titles appear in the digest
string — so the top-3 truncation invariant fails on the fallback
path. -/
theorem c7_cex :
    ¬ ((fetch_news_lines fiveResults).length ≤ 3) ∧
    strContains (fetch_market_news (Except.ok fiveResults)) "t4" = true ∧
    strContains (fetch_market_news (Except.ok fiveResults)) "t5" = true := by
  refine ⟨by decide, by decide, by decide⟩

/-- A configuration whose model API key alone is unset. -/
def cfgMissingGroq : Config := ⟨none, some "t", some "b", some "c"⟩

/-- Invocation environment for the missing-model-key scenario. -/
def envMissingGroq : MainEnv :=
  ⟨cfgMissingGroq, fun _ => .ok "done", .ok [], fun _ _ => .success "text", .ok (), none⟩

/-- C8: with the model API key absent, the module-level
`os.environ["GROQ_API_KEY"] = GROQ_API_KEY` assignment raises `TypeError`
before `validate_environment` can run, so the program aborts without the
enumerated list of missing names — even though `validate_environment`
itself lists `GROQ_API_KEY` among its required names and would have
reported exactly `["GROQ_API_KEY"]`. -/
theorem c8_crash_before_validation :
    program_startup envMissingGroq "2025-01-01" "12:00:00" =
      StartupResult.moduleLoadError "str expected, not NoneType" ∧
    (¬ ∃ missing, program_startup envMissingGroq "2025-01-01" "12:00:00" =
      StartupResult.envValidationFailed missing) ∧
    missing_vars cfgMissingGroq = ["GROQ_API_KEY"] := by
  refine ⟨rfl, ?_, by decide⟩
  rintro ⟨missing, hm⟩
  have h : program_startup envMissingGroq "2025-01-01" "12:00:00" =
      StartupResult.moduleLoadError "str expected, not NoneType" := rfl
  rw [h] at hm
  cases hm

/-- C9: the primary-path delivery tool is a total function of the
transport outcome — it never raises — returning either the success
confirmation or a string that begins with the error marker. -/
theorem c9_sender_never_raises (message : String) (transport : Except String Unit) :
    telegram_sender_tool message transport =
        "✅ Message sent successfully to Telegram channel" ∨
    ∃ e, telegram_sender_tool message transport =
        "❌ Error sending to Telegram: " ++ e := by
  cases transport with
  | ok u => exact Or.inl rfl
  | error e => exact Or.inr ⟨e, rfl⟩

end MarketWrap
